import Mathlib

/-
Verification of `tools/plot_performance.py` (GitZoom repository).

The script is a one-shot CLI tool:
  1. if `len(sys.argv) < 2`: print a usage line and exit 2;
  2. `p = Path(sys.argv[1])`; if `not p.exists()`: print `File not found: <p>`
     and exit 2;
  3. `data = json.loads(p.read_text())`;
  4. `names = [d['Name'] for d in data]`, `avgs = [d['AvgMs'] for d in data]`;
  5. build a horizontal bar chart: `ax.barh(names, avgs, color=palette[:len(names)])`,
     x-label, title, and for each `(i, v)` in `enumerate(avgs)` a text mark at
     `(v + max(avgs)*0.01, i)` reading `f"{v:.0f} ms"`, `va='center'`;
  6. `out = p.parent / ('plot-' + p.stem + '.png')`; save; `print('Wrote', out)`;
     the process then ends with exit code 0.

Modelling conventions:
  * Python floats are modelled as rationals (`ℚ`); the claims under study do
    not depend on floating-point rounding of arithmetic.
  * The filesystem is a function from path strings to an optional node; a file
    node carries the result of `json.loads` on its text (`none` = the text is
    not valid JSON), since the JSON text parser itself is the `json` standard
    library, not code of this repository.
  * `pathlib.PurePosixPath` operations (`parent`, `stem`, `/`) are modelled on
    raw path strings; pathlib's normalisation of duplicate or trailing
    slashes is outside the model (all paths in the claims are normalised).
  * An uncaught Python exception terminates the interpreter with exit code 1
    and prints a traceback to stderr; we model only the stdout lines and the
    exit code.
  * matplotlib recycles a bar-color list shorter than the number of bars;
    `cycleColors` models that recycling.
-/

/-- A parsed JSON value, the result of `json.loads`. Objects keep their fields
in document order (CPython dicts preserve insertion order, and `json.loads`
inserts in document order). -/
inductive Json where
  | null : Json
  | bool (b : Bool) : Json
  | num (q : ℚ) : Json
  | str (s : String) : Json
  | arr (elems : List Json) : Json
  | obj (fields : List (String × Json)) : Json

/-- The Python exceptions the modelled fragments can raise. -/
inductive PyError where
  | typeError : PyError
  | keyError : PyError
  | valueError : PyError

/-- The bar-color palette of line 21: `['#2b8cbe','#7bccc4','#a6bddb','#d0d1e6']`. -/
def palette : List String := ["#2b8cbe", "#7bccc4", "#a6bddb", "#d0d1e6"]

/-- The usage line printed on line 7. -/
def usageMsg : String := "Usage: plot_performance.py <baseline.json>"

/-- Index of the last occurrence of `c` in `cs`, if any (Python `str.rfind`). -/
def lastIdx (c : Char) (cs : List Char) : Option Nat :=
  ((List.range cs.length).filter (fun i => cs.get? i == some c)).getLast?

/-- `PurePosixPath.name` on a normalised path: the part after the last slash. -/
def pathNameL (cs : List Char) : List Char :=
  match lastIdx '/' cs with
  | none => cs
  | some i => cs.drop (i + 1)

/-- `PurePosixPath.parent` on a normalised path: everything before the last
slash; `.` when there is no slash; `/` when the last slash is the root. -/
def pathParentL (cs : List Char) : List Char :=
  match lastIdx '/' cs with
  | none => ['.']
  | some 0 => ['/']
  | some i => cs.take i

/-- `PurePosixPath.stem`: the name with its suffix removed, where the suffix is
`name[i:]` for `i = name.rfind('.')` only when `0 < i < len(name) - 1`
(CPython `pathlib`); so a name with no dot, a leading-dot name such as
`.bashrc`, and a name ending in a dot all keep the full name. -/
def pathStemL (cs : List Char) : List Char :=
  match lastIdx '.' (pathNameL cs) with
  | none => pathNameL cs
  | some i =>
    if 0 < i ∧ i + 1 < (pathNameL cs).length then (pathNameL cs).take i
    else pathNameL cs

/-- `PurePosixPath` `/` on a parent produced by `pathParentL`: joining onto `.`
drops the dot, joining onto the root does not double the slash. -/
def pathJoinL (parent child : List Char) : List Char :=
  if parent = ['.'] then child
  else if parent = ['/'] then '/' :: child
  else parent ++ '/' :: child

/-- Line 27: `out = p.parent / ('plot-' + p.stem + '.png')`. -/
def outPath (p : String) : String :=
  String.mk (pathJoinL (pathParentL p.toList)
    ("plot-".toList ++ pathStemL p.toList ++ ".png".toList))

/-- Left-to-right effectful map over `Except`, stopping at the first error:
the evaluation order of a Python list comprehension `[f(d) for d in l]`. -/
def mapE {α β : Type} (f : α → Except PyError β) : List α → Except PyError (List β)
  | [] => .ok []
  | a :: as =>
    match f a with
    | .error e => .error e
    | .ok b =>
      match mapE f as with
      | .error e => .error e
      | .ok bs => .ok (b :: bs)

/-- Python iteration over a parsed JSON value (`for d in data`): arrays yield
their elements, dicts their keys, strings their characters; numbers, booleans
and `None` are not iterable (`TypeError`). -/
def pyIter : Json → Except PyError (List Json)
  | .arr xs => .ok xs
  | .obj kvs => .ok (kvs.map (fun kv => Json.str kv.1))
  | .str s => .ok (s.toList.map (fun c => Json.str (String.mk [c])))
  | _ => .error .typeError

/-- Python subscription `d[k]` with a string key: dict lookup (`KeyError` when
the key is absent), `TypeError` on any non-dict value. -/
def pyGetItem (d : Json) (k : String) : Except PyError Json :=
  match d with
  | .obj kvs =>
    match kvs.lookup k with
    | some v => .ok v
    | none => .error .keyError
  | _ => .error .typeError

/-- Numeric coercion of a value used as a bar width / in arithmetic: numbers
stand for themselves, Python `bool` is an `int` subclass (`True == 1`),
everything else raises `TypeError`. -/
def jsonNum : Json → Except PyError ℚ
  | .num q => .ok q
  | .bool b => .ok (if b then 1 else 0)
  | _ => .error .typeError

/-- Python `max` on a list: `ValueError` on the empty list, otherwise the fold
of binary `max` over the elements. -/
def pyMax : List ℚ → Except PyError ℚ
  | [] => .error .valueError
  | x :: xs => .ok (xs.foldl max x)

/-- Total companion of `pyMax` (the value it returns on non-empty input). -/
def pyMaxD : List ℚ → ℚ
  | [] => 0
  | x :: xs => xs.foldl max x

/-- Rounding to the nearest integer, ties to even: the rounding of Python's
`format(v, '.0f')` (modulo binary floating point, which the model elides). -/
def roundHalfEven (q : ℚ) : ℤ :=
  let f := ⌊q⌋
  let r := q - f
  if r < 1 / 2 then f
  else if 1 / 2 < r then f + 1
  else if f % 2 = 0 then f else f + 1

/-- The digits of `f"{v:.0f}"`. -/
def fmtF0 (q : ℚ) : String := toString (roundHalfEven q)

/-- One `ax.text(x, y, text, va=...)` call of the loop on lines 24-25. -/
structure TextMark where
  x : ℚ
  y : Nat
  text : String
  va : String

/-- The mark the loop body places for `(i, v)` given `m = max(avgs)`:
`ax.text(v + max(avgs)*0.01, i, f"{v:.0f} ms", va='center')`. -/
def markOf (m : ℚ) (iv : Nat × ℚ) : TextMark :=
  { x := iv.2 + m * (1 / 100), y := iv.1,
    text := fmtF0 iv.2 ++ " ms", va := "center" }

/-- Lines 24-25: `for i,v in enumerate(avgs): ax.text(v + max(avgs)*0.01, i,
f"{v:.0f} ms", va='center')`. `max(avgs)` is evaluated inside the loop body,
so it is never reached when `avgs` is empty. -/
def textMarksOf (avgs : List ℚ) : Except PyError (List TextMark) :=
  mapE (fun iv =>
    match pyMax avgs with
    | .error e => .error e
    | .ok m => .ok (markOf m iv))
    avgs.enum

/-- matplotlib recycles a color list shorter than the number of bars: bar `j`
of `n` gets `cs[j % len(cs)]`. -/
def cycleColors (cs : List String) (n : Nat) : List String :=
  (List.range n).map (fun j => cs.getD (j % cs.length) "C0")

/-- The figure state built on lines 19-25, as handed to `fig.savefig`. -/
structure BarChart where
  style : String
  figsizeW : ℚ
  figsizeH : ℚ
  labels : List Json
  widths : List ℚ
  colors : List String
  xlabel : String
  title : String
  marks : List TextMark

/-- Lines 16-25: extract the two comprehensions and build the chart. Any
Python exception on the way (non-iterable data, non-subscriptable element,
missing key, non-numeric width) surfaces as an `Except.error`. -/
def renderChart (data : Json) : Except PyError BarChart :=
  match pyIter data with
  | .error e => .error e
  | .ok ds =>
    match mapE (fun d => pyGetItem d "Name") ds with
    | .error e => .error e
    | .ok labels =>
      match mapE (fun d => pyGetItem d "AvgMs") ds with
      | .error e => .error e
      | .ok avgsJ =>
        match mapE jsonNum avgsJ with
        | .error e => .error e
        | .ok avgs =>
          match textMarksOf avgs with
          | .error e => .error e
          | .ok marks =>
            .ok { style := "ggplot", figsizeW := 8, figsizeH := 4,
                  labels := labels, widths := avgs,
                  colors := cycleColors (palette.take labels.length) labels.length,
                  xlabel := "Average elapsed (ms)",
                  title := "Performance baseline — Avg elapsed per scenario",
                  marks := marks }

/-- A filesystem node: a regular file (carrying the `json.loads` result of its
text, `none` when the text is not valid JSON) or a directory. -/
inductive FsNode where
  | file (content : Option Json) : FsNode
  | dir : FsNode

/-- Observable outcome of one process run: stdout lines, exit code, and the
file written by `fig.savefig` (path and figure), if the run got that far. -/
structure ProgResult where
  printed : List String
  exitCode : Nat
  written : Option (String × BarChart)

/-- The whole script, lines 6-30, as a function of `sys.argv` and the
filesystem. `p.exists()` is true for any node; `p.read_text()` raises
`IsADirectoryError` on a directory; an uncaught exception ends the
interpreter with exit code 1 and nothing written (the only write,
`fig.savefig`, is the last step before the final `print`). -/
def run (argv : List String) (fs : String → Option FsNode) : ProgResult :=
  if argv.length < 2 then
    { printed := [usageMsg], exitCode := 2, written := none }
  else
    match fs (argv.getD 1 "") with
    | none =>
      { printed := ["File not found: " ++ argv.getD 1 ""], exitCode := 2, written := none }
    | some FsNode.dir => { printed := [], exitCode := 1, written := none }
    | some (FsNode.file none) => { printed := [], exitCode := 1, written := none }
    | some (FsNode.file (some data)) =>
      match renderChart data with
      | .error _ => { printed := [], exitCode := 1, written := none }
      | .ok c =>
        { printed := ["Wrote " ++ outPath (argv.getD 1 "")], exitCode := 0,
          written := some (outPath (argv.getD 1 ""), c) }

/-- The JSON object for one well-formed performance record. -/
def mkRecord (r : String × ℚ) : Json :=
  Json.obj [("Name", Json.str r.1), ("AvgMs", Json.num r.2)]

/-- The JSON array for a list of well-formed performance records. -/
def mkData (rs : List (String × ℚ)) : Json :=
  Json.arr (rs.map mkRecord)

/-- Closed form of the chart `renderChart` produces on well-formed records. -/
def chartOf (rs : List (String × ℚ)) : BarChart :=
  { style := "ggplot", figsizeW := 8, figsizeH := 4,
    labels := rs.map (fun r => Json.str r.1),
    widths := rs.map Prod.snd,
    colors := cycleColors (palette.take rs.length) rs.length,
    xlabel := "Average elapsed (ms)",
    title := "Performance baseline — Avg elapsed per scenario",
    marks := (rs.map Prod.snd).enum.map (markOf (pyMaxD (rs.map Prod.snd))) }

/-- Unfolding `run` on the success path: both arguments present, the path maps
to a regular file with parseable content, and the chart builds. -/
theorem run_success (argv : List String) (fs : String → Option FsNode) (p : String)
    (data : Json) (c : BarChart) (hlen : 2 ≤ argv.length) (hp : argv.getD 1 "" = p)
    (hfs : fs p = some (FsNode.file (some data))) (hrc : renderChart data = .ok c) :
    run argv fs =
      { printed := ["Wrote " ++ outPath p], exitCode := 0, written := some (outPath p, c) } := by
  subst hp
  have h2 : ¬ argv.length < 2 := by omega
  simp only [run, if_neg h2, hfs, hrc]

/-- Unfolding `run` when the path maps to nothing. -/
theorem run_notfound (argv : List String) (fs : String → Option FsNode) (p : String)
    (hlen : 2 ≤ argv.length) (hp : argv.getD 1 "" = p) (hfs : fs p = none) :
    run argv fs =
      { printed := ["File not found: " ++ p], exitCode := 2, written := none } := by
  subst hp
  have h2 : ¬ argv.length < 2 := by omega
  simp only [run, if_neg h2, hfs]

/-- Unfolding `run` when the path maps to a directory. -/
theorem run_dir (argv : List String) (fs : String → Option FsNode) (p : String)
    (hlen : 2 ≤ argv.length) (hp : argv.getD 1 "" = p) (hfs : fs p = some FsNode.dir) :
    run argv fs = { printed := [], exitCode := 1, written := none } := by
  subst hp
  have h2 : ¬ argv.length < 2 := by omega
  simp only [run, if_neg h2, hfs]

/-- Unfolding `run` when the file's text is not valid JSON. -/
theorem run_badtext (argv : List String) (fs : String → Option FsNode) (p : String)
    (hlen : 2 ≤ argv.length) (hp : argv.getD 1 "" = p)
    (hfs : fs p = some (FsNode.file none)) :
    run argv fs = { printed := [], exitCode := 1, written := none } := by
  subst hp
  have h2 : ¬ argv.length < 2 := by omega
  simp only [run, if_neg h2, hfs]

/-- Unfolding `run` when the chart construction raises. -/
theorem run_renderError (argv : List String) (fs : String → Option FsNode) (p : String)
    (data : Json) (e : PyError) (hlen : 2 ≤ argv.length) (hp : argv.getD 1 "" = p)
    (hfs : fs p = some (FsNode.file (some data))) (hrc : renderChart data = .error e) :
    run argv fs = { printed := [], exitCode := 1, written := none } := by
  subst hp
  have h2 : ¬ argv.length < 2 := by omega
  simp only [run, if_neg h2, hfs, hrc]

/-- Claim C4: with no path argument the program prints exactly the usage
message `Usage: plot_performance.py <baseline.json>`, exits with code 2, and
writes no output file. -/
theorem claim4_usage (argv : List String) (fs : String → Option FsNode)
    (h : argv.length < 2) :
    (run argv fs).printed = ["Usage: plot_performance.py <baseline.json>"] ∧
    (run argv fs).exitCode = 2 ∧ (run argv fs).written = none := by
  have hr : run argv fs = { printed := [usageMsg], exitCode := 2, written := none } := by
    simp only [run, if_pos h]
  rw [hr]
  exact ⟨rfl, rfl, rfl⟩

/-- Witness for C4 at the concrete zero-argument invocation. -/
theorem claim4_usage_witness :
    (run ["plot_performance.py"] (fun _ => none)).printed =
      ["Usage: plot_performance.py <baseline.json>"] ∧
    (run ["plot_performance.py"] (fun _ => none)).exitCode = 2 ∧
    (run ["plot_performance.py"] (fun _ => none)).written = none :=
  claim4_usage ["plot_performance.py"] (fun _ => none) (by decide)

/-- Claim C3: when the path argument refers to nothing on the filesystem, the
program prints `File not found: <path>`, exits with code 2, and writes no
output file. -/
theorem claim3_notfound (argv : List String) (fs : String → Option FsNode) (p : String)
    (hlen : 2 ≤ argv.length) (hp : argv.getD 1 "" = p) (hfs : fs p = none) :
    (run argv fs).printed = ["File not found: " ++ p] ∧
    (run argv fs).exitCode = 2 ∧ (run argv fs).written = none := by
  rw [run_notfound argv fs p hlen hp hfs]
  exact ⟨rfl, rfl, rfl⟩

/-- Witness for C3 at the concrete path `/tmp/does-not-exist.json` on an empty
filesystem. -/
theorem claim3_notfound_witness :
    (run ["plot_performance.py", "/tmp/does-not-exist.json"] (fun _ => none)).printed =
      ["File not found: /tmp/does-not-exist.json"] ∧
    (run ["plot_performance.py", "/tmp/does-not-exist.json"] (fun _ => none)).exitCode = 2 ∧
    (run ["plot_performance.py", "/tmp/does-not-exist.json"] (fun _ => none)).written = none :=
  claim3_notfound ["plot_performance.py", "/tmp/does-not-exist.json"] (fun _ => none)
    "/tmp/does-not-exist.json" (by decide) rfl rfl

/-- Claim C10: a path that exists but is a directory does not take the
`File not found` branch (nothing containing that message is printed and the
exit code is not 2); the read step raises instead, ending the process with an
uncaught-error status (1) and no file written. -/
theorem claim10_dir (argv : List String) (fs : String → Option FsNode) (p : String)
    (hlen : 2 ≤ argv.length) (hp : argv.getD 1 "" = p) (hfs : fs p = some FsNode.dir) :
    (run argv fs).printed = [] ∧
    ("File not found: " ++ p) ∉ (run argv fs).printed ∧
    (run argv fs).exitCode = 1 ∧ (run argv fs).exitCode ≠ 2 ∧
    (run argv fs).exitCode ≠ 0 ∧ (run argv fs).written = none := by
  rw [run_dir argv fs p hlen hp hfs]
  refine ⟨rfl, ?_, rfl, by decide, by decide, rfl⟩
  simp

/-- Witness for C10 at a concrete filesystem where `data` is a directory. -/
theorem claim10_dir_witness :
    (run ["plot_performance.py", "data"]
      (fun q => if q = "data" then some FsNode.dir else none)).printed = [] ∧
    ("File not found: " ++ "data") ∉ (run ["plot_performance.py", "data"]
      (fun q => if q = "data" then some FsNode.dir else none)).printed ∧
    (run ["plot_performance.py", "data"]
      (fun q => if q = "data" then some FsNode.dir else none)).exitCode = 1 ∧
    (run ["plot_performance.py", "data"]
      (fun q => if q = "data" then some FsNode.dir else none)).exitCode ≠ 2 ∧
    (run ["plot_performance.py", "data"]
      (fun q => if q = "data" then some FsNode.dir else none)).exitCode ≠ 0 ∧
    (run ["plot_performance.py", "data"]
      (fun q => if q = "data" then some FsNode.dir else none)).written = none :=
  claim10_dir ["plot_performance.py", "data"]
    (fun q => if q = "data" then some FsNode.dir else none) "data" (by decide) rfl rfl

/-- `[d['Name'] for d in data]` on well-formed records yields exactly the
record names, in input order. -/
theorem mapE_name (rs : List (String × ℚ)) :
    mapE (fun d => pyGetItem d "Name") (rs.map mkRecord) =
      .ok (rs.map (fun r => Json.str r.1)) := by
  induction rs with
  | nil => rfl
  | cons r rt ih =>
    have h : pyGetItem (mkRecord r) "Name" = Except.ok (Json.str r.1) := rfl
    simp only [List.map_cons, mapE, h, ih]

/-- `[d['AvgMs'] for d in data]` on well-formed records yields exactly the
record averages, in input order. -/
theorem mapE_avg (rs : List (String × ℚ)) :
    mapE (fun d => pyGetItem d "AvgMs") (rs.map mkRecord) =
      .ok (rs.map (fun r => Json.num r.2)) := by
  induction rs with
  | nil => rfl
  | cons r rt ih =>
    have h : pyGetItem (mkRecord r) "AvgMs" = Except.ok (Json.num r.2) := rfl
    simp only [List.map_cons, mapE, h, ih]

/-- Coercing a list of JSON numbers to rationals succeeds elementwise. -/
theorem mapE_num (rs : List (String × ℚ)) :
    mapE jsonNum (rs.map (fun r => Json.num r.2)) = .ok (rs.map Prod.snd) := by
  induction rs with
  | nil => rfl
  | cons r rt ih => simp only [List.map_cons, mapE, jsonNum, ih]

/-- `mapE` of a function that never fails is the plain `map`. -/
theorem mapE_ok_fun {α β : Type} (g : α → β) (l : List α) :
    mapE (fun a => Except.ok (g a)) l = .ok (l.map g) := by
  induction l with
  | nil => rfl
  | cons a as ih => simp only [List.map_cons, mapE, ih]

/-- When `pyMax l` succeeds with value `m`, the annotation loop body succeeds
on every iteration and produces one mark per enumerated element. -/
theorem mapE_marks (l : List ℚ) (m : ℚ) (hm : pyMax l = .ok m)
    (l' : List (Nat × ℚ)) :
    mapE (fun iv =>
      match pyMax l with
      | .error e => .error e
      | .ok mm => .ok (markOf mm iv)) l' = .ok (l'.map (markOf m)) := by
  have hfun : (fun iv : Nat × ℚ =>
      match pyMax l with
      | Except.error e => Except.error e
      | Except.ok mm => Except.ok (markOf mm iv)) =
      (fun iv : Nat × ℚ => Except.ok (markOf m iv)) := by
    funext iv
    rw [hm]
  rw [hfun]
  exact mapE_ok_fun (markOf m) l'

/-- The annotation loop never fails: on the empty averages list it performs no
iteration (so `max` of an empty sequence is never evaluated), and on a
non-empty list `max` succeeds. -/
theorem textMarksOf_ok (avgs : List ℚ) :
    textMarksOf avgs = .ok (avgs.enum.map (markOf (pyMaxD avgs))) := by
  cases avgs with
  | nil => rfl
  | cons x xs =>
    exact mapE_marks (x :: xs) (pyMaxD (x :: xs)) rfl (x :: xs).enum

/-- On the JSON encoding of well-formed records the whole chart construction
succeeds and produces `chartOf`. -/
theorem renderChart_mkData (rs : List (String × ℚ)) :
    renderChart (mkData rs) = .ok (chartOf rs) := by
  have hiter : pyIter (mkData rs) = .ok (rs.map mkRecord) := rfl
  simp only [renderChart, hiter, mapE_name, mapE_avg, mapE_num,
    textMarksOf_ok, chartOf, List.length_map]

/-- Claim C9: an invocation that reaches the save step successfully (the path
names a regular file, the content parses, the chart builds, and the save is
the model's always-succeeding write) prints `Wrote <output-path>` and
terminates with exit code 0. -/
theorem claim9_wrote (argv : List String) (fs : String → Option FsNode) (p : String)
    (data : Json) (c : BarChart) (hlen : 2 ≤ argv.length) (hp : argv.getD 1 "" = p)
    (hfs : fs p = some (FsNode.file (some data))) (hrc : renderChart data = .ok c) :
    (run argv fs).printed = ["Wrote " ++ outPath p] ∧ (run argv fs).exitCode = 0 := by
  rw [run_success argv fs p data c hlen hp hfs hrc]
  exact ⟨rfl, rfl⟩

/-- Witness for C9: a concrete two-record baseline file at `x/baseline.json`
yields `Wrote x/plot-baseline.png` and exit code 0. -/
theorem claim9_wrote_witness :
    (run ["plot_performance.py", "x/baseline.json"]
      (fun q => if q = "x/baseline.json"
        then some (FsNode.file (some (mkData [("A", 10), ("B", 20)]))) else none)).printed =
      ["Wrote " ++ outPath "x/baseline.json"] ∧
    (run ["plot_performance.py", "x/baseline.json"]
      (fun q => if q = "x/baseline.json"
        then some (FsNode.file (some (mkData [("A", 10), ("B", 20)]))) else none)).exitCode = 0 :=
  claim9_wrote ["plot_performance.py", "x/baseline.json"]
    (fun q => if q = "x/baseline.json"
      then some (FsNode.file (some (mkData [("A", 10), ("B", 20)]))) else none)
    "x/baseline.json" (mkData [("A", 10), ("B", 20)]) (chartOf [("A", 10), ("B", 20)])
    (by decide) rfl rfl (renderChart_mkData [("A", 10), ("B", 20)])

/-- Claim C1: the output path written and reported is the input path's parent
directory joined with `plot-<stem>.png`, where the stem strips only the final
extension of the filename; in particular `data/run.results.json` yields
`data/plot-run.results.png`. -/
theorem claim1_outpath (argv : List String) (fs : String → Option FsNode) (p : String)
    (data : Json) (c : BarChart) (hlen : 2 ≤ argv.length) (hp : argv.getD 1 "" = p)
    (hfs : fs p = some (FsNode.file (some data))) (hrc : renderChart data = .ok c) :
    (run argv fs).written = some (outPath p, c) ∧
    (run argv fs).printed = ["Wrote " ++ outPath p] ∧
    outPath p = String.mk (pathJoinL (pathParentL p.toList)
      ("plot-".toList ++ pathStemL p.toList ++ ".png".toList)) ∧
    outPath "data/run.results.json" = "data/plot-run.results.png" := by
  rw [run_success argv fs p data c hlen hp hfs hrc]
  exact ⟨rfl, rfl, rfl, by decide⟩

/-- Witness for C1 at the input path `data/run.results.json` (only the final
extension `.json` is stripped from the multi-dot filename). -/
theorem claim1_outpath_witness :
    (run ["plot_performance.py", "data/run.results.json"]
      (fun q => if q = "data/run.results.json"
        then some (FsNode.file (some (Json.arr []))) else none)).written =
      some (outPath "data/run.results.json", chartOf []) ∧
    (run ["plot_performance.py", "data/run.results.json"]
      (fun q => if q = "data/run.results.json"
        then some (FsNode.file (some (Json.arr []))) else none)).printed =
      ["Wrote " ++ outPath "data/run.results.json"] ∧
    outPath "data/run.results.json" = String.mk (pathJoinL
      (pathParentL "data/run.results.json".toList)
      ("plot-".toList ++ pathStemL "data/run.results.json".toList ++ ".png".toList)) ∧
    outPath "data/run.results.json" = "data/plot-run.results.png" :=
  claim1_outpath ["plot_performance.py", "data/run.results.json"]
    (fun q => if q = "data/run.results.json"
      then some (FsNode.file (some (Json.arr []))) else none)
    "data/run.results.json" (Json.arr []) (chartOf [])
    (by decide) rfl rfl (renderChart_mkData [])

/-- Claim C2: on the empty input array `[]` the program succeeds with exit
code 0 and writes a zero-bar chart; the annotation loop performs no iteration,
so the `max`-of-empty offset computation is never evaluated and no error is
raised. -/
theorem claim2_empty (argv : List String) (fs : String → Option FsNode) (p : String)
    (hlen : 2 ≤ argv.length) (hp : argv.getD 1 "" = p)
    (hfs : fs p = some (FsNode.file (some (Json.arr [])))) :
    (run argv fs).exitCode = 0 ∧
    (run argv fs).written = some (outPath p, chartOf []) ∧
    (run argv fs).printed = ["Wrote " ++ outPath p] ∧
    (chartOf []).labels = [] ∧ (chartOf []).widths = [] ∧ (chartOf []).marks = [] ∧
    textMarksOf [] = .ok [] := by
  rw [run_success argv fs p (Json.arr []) (chartOf []) hlen hp hfs (renderChart_mkData [])]
  exact ⟨rfl, rfl, rfl, rfl, rfl, rfl, rfl⟩

/-- Witness for C2 at a concrete filesystem holding `[]` at `data/empty.json`. -/
theorem claim2_empty_witness :
    (run ["plot_performance.py", "data/empty.json"]
      (fun q => if q = "data/empty.json"
        then some (FsNode.file (some (Json.arr []))) else none)).exitCode = 0 ∧
    (run ["plot_performance.py", "data/empty.json"]
      (fun q => if q = "data/empty.json"
        then some (FsNode.file (some (Json.arr []))) else none)).written =
      some (outPath "data/empty.json", chartOf []) ∧
    (run ["plot_performance.py", "data/empty.json"]
      (fun q => if q = "data/empty.json"
        then some (FsNode.file (some (Json.arr []))) else none)).printed =
      ["Wrote " ++ outPath "data/empty.json"] ∧
    (chartOf []).labels = ([] : List Json) ∧
    (chartOf []).widths = ([] : List ℚ) ∧
    (chartOf []).marks = ([] : List TextMark) ∧
    textMarksOf [] = .ok [] :=
  claim2_empty ["plot_performance.py", "data/empty.json"]
    (fun q => if q = "data/empty.json"
      then some (FsNode.file (some (Json.arr []))) else none)
    "data/empty.json" (by decide) rfl rfl

/-- Python's `max` loop (folding binary `max`) returns an element of the list. -/
theorem foldl_max_mem (x : ℚ) (xs : List ℚ) : xs.foldl max x ∈ x :: xs := by
  induction xs generalizing x with
  | nil => exact List.mem_singleton.mpr rfl
  | cons y ys ih =>
    show ys.foldl max (max x y) ∈ x :: y :: ys
    rcases List.mem_cons.mp (ih (max x y)) with h1 | h1
    · rw [h1]
      rcases max_choice x y with hc | hc <;> rw [hc]
      · exact List.mem_cons_self x (y :: ys)
      · exact List.mem_cons_of_mem x (List.mem_cons_self y ys)
    · exact List.mem_cons_of_mem x (List.mem_cons_of_mem y h1)

/-- Python's `max` loop bounds every element of the list from above. -/
theorem le_foldl_max (x : ℚ) (xs : List ℚ) : ∀ a ∈ x :: xs, a ≤ xs.foldl max x := by
  induction xs generalizing x with
  | nil =>
    intro a ha
    rcases List.mem_cons.mp ha with h | h
    · exact le_of_eq h
    · exact absurd h (List.not_mem_nil a)
  | cons y ys ih =>
    intro a ha
    have hself : max x y ≤ ys.foldl max (max x y) :=
      ih (max x y) (max x y) (List.mem_cons_self _ _)
    rcases List.mem_cons.mp ha with h | h
    · rw [h]
      exact le_trans (le_max_left x y) hself
    rcases List.mem_cons.mp h with h2 | h2
    · rw [h2]
      exact le_trans (le_max_right x y) hself
    · exact ih (max x y) a (List.mem_cons_of_mem _ h2)

/-- On a non-empty list, `pyMaxD` is a member of the list. -/
theorem pyMaxD_mem (avgs : List ℚ) (h : avgs ≠ []) : pyMaxD avgs ∈ avgs := by
  cases avgs with
  | nil => exact absurd rfl h
  | cons x xs => exact foldl_max_mem x xs

/-- `pyMaxD` bounds every element of the list from above. -/
theorem le_pyMaxD (avgs : List ℚ) : ∀ a ∈ avgs, a ≤ pyMaxD avgs := by
  cases avgs with
  | nil => exact fun a ha => absurd ha (List.not_mem_nil a)
  | cons x xs => exact le_foldl_max x xs

/-- The source truncates the palette to `len(names)` entries and matplotlib
recycles that truncated list over the bars; the two effects compose to
`palette[i % 4]` for every bar `i`. -/
theorem cycleColors_take_palette (n i : Nat) (hi : i < n) :
    (cycleColors (palette.take n) n)[i]? = palette[i % 4]? := by
  rcases Nat.lt_or_ge n 4 with hn | hn
  · interval_cases n
    · exact absurd hi (Nat.not_lt_zero i)
    · interval_cases i
      · rfl
    · interval_cases i <;> rfl
    · interval_cases i <;> rfl
  · have htake : palette.take n = palette :=
      List.take_of_length_le (le_trans (by decide) hn)
    have h4 : i % 4 < 4 := Nat.mod_lt i (by omega)
    rw [cycleColors, htake, List.getElem?_map, List.getElem?_range hi]
    have hlen : palette.length = 4 := rfl
    simp only [Option.map_some', hlen]
    set k := i % 4 with hk
    interval_cases k <;> rfl

/-- Claim C5: bar colors come from the fixed palette of four pairwise-distinct
colors, assigned cyclically: bar `i` gets `palette[i % 4]` for every `i < n`,
also when `n` exceeds the palette size. -/
theorem claim5_colors (rs : List (String × ℚ)) :
    palette.Nodup ∧ palette.length = 4 ∧
    renderChart (mkData rs) = .ok (chartOf rs) ∧
    (chartOf rs).colors.length = rs.length ∧
    ∀ i, i < rs.length → (chartOf rs).colors[i]? = palette[i % 4]? := by
  refine ⟨by decide, rfl, renderChart_mkData rs, ?_, ?_⟩
  · simp [chartOf, cycleColors]
  · intro i hi
    exact cycleColors_take_palette rs.length i hi

/-- Witness for C5 on a six-record input: bars 4 and 5 wrap around to the
first and second palette entries. -/
theorem claim5_colors_witness :
    renderChart (mkData [("a", 1), ("b", 2), ("c", 3), ("d", 4), ("e", 5), ("f", 6)]) =
      .ok (chartOf [("a", 1), ("b", 2), ("c", 3), ("d", 4), ("e", 5), ("f", 6)]) ∧
    (chartOf [("a", 1), ("b", 2), ("c", 3), ("d", 4), ("e", 5), ("f", 6)]).colors[4]? =
      palette[4 % 4]? ∧
    (chartOf [("a", 1), ("b", 2), ("c", 3), ("d", 4), ("e", 5), ("f", 6)]).colors[5]? =
      palette[5 % 4]? :=
  ⟨(claim5_colors [("a", 1), ("b", 2), ("c", 3), ("d", 4), ("e", 5), ("f", 6)]).2.2.1,
   (claim5_colors [("a", 1), ("b", 2), ("c", 3), ("d", 4), ("e", 5), ("f", 6)]).2.2.2.2 4
     (by decide),
   (claim5_colors [("a", 1), ("b", 2), ("c", 3), ("d", 4), ("e", 5), ("f", 6)]).2.2.2.2 5
     (by decide)⟩

/-- Claim C7: the extracted names and averages are parallel sequences of the
input's length, in input order, and the chart receives them in that order. -/
theorem claim7_parallel (rs : List (String × ℚ)) :
    renderChart (mkData rs) = .ok (chartOf rs) ∧
    (chartOf rs).labels = rs.map (fun r => Json.str r.1) ∧
    (chartOf rs).widths = rs.map Prod.snd ∧
    (chartOf rs).labels.length = rs.length ∧
    (chartOf rs).widths.length = rs.length := by
  refine ⟨renderChart_mkData rs, rfl, rfl, ?_, ?_⟩ <;> simp [chartOf]

/-- Claim C6: on a non-empty input every bar `i` carries a mark whose text is
the integer-formatted value followed by ` ms`, whose horizontal position is
the value plus one percent of the maximum of all averages, and which is
vertically centered on bar `i`; `pyMaxD` really is that maximum. -/
theorem claim6_marks (rs : List (String × ℚ)) (hne : rs ≠ []) :
    renderChart (mkData rs) = .ok (chartOf rs) ∧
    (chartOf rs).marks.length = rs.length ∧
    (∀ i v, (rs.map Prod.snd)[i]? = some v →
      (chartOf rs).marks[i]? = some ({ x := v + pyMaxD (rs.map Prod.snd) * (1 / 100), y := i, text := fmtF0 v ++ " ms", va := "center" } : TextMark)) ∧
    pyMaxD (rs.map Prod.snd) ∈ rs.map Prod.snd ∧
    ∀ a ∈ rs.map Prod.snd, a ≤ pyMaxD (rs.map Prod.snd) := by
  refine ⟨renderChart_mkData rs, ?_, ?_, ?_, le_pyMaxD (rs.map Prod.snd)⟩
  · simp [chartOf]
  · intro i v hv
    show ((rs.map Prod.snd).enum.map (markOf (pyMaxD (rs.map Prod.snd))))[i]? = _
    rw [List.getElem?_map, List.enum_eq_enumFrom, List.getElem?_enumFrom, hv]
    simp [markOf]
  · refine pyMaxD_mem (rs.map Prod.snd) ?_
    intro hmap
    exact hne (List.map_eq_nil_iff.mp hmap)

/-- Witness for C6 on the two-record input `A:10ms, B:20ms`: bar 1 is marked
`20 ms`-style text at `20 + max*0.01`, centered at height 1. -/
theorem claim6_marks_witness :
    renderChart (mkData [("A", 10), ("B", 20)]) = .ok (chartOf [("A", 10), ("B", 20)]) ∧
    (chartOf [("A", 10), ("B", 20)]).marks[1]? =
      some ({ x := 20 + pyMaxD ([(("A" : String), (10 : ℚ)), ("B", 20)].map Prod.snd) * (1 / 100), y := 1, text := fmtF0 20 ++ " ms", va := "center" } : TextMark) :=
  ⟨(claim6_marks [("A", 10), ("B", 20)] (by decide)).1,
   (claim6_marks [("A", 10), ("B", 20)] (by decide)).2.2.1 1 20 rfl⟩

/-- An array element on which the comprehensions raise: either not a JSON
object at all, or an object lacking the `Name` or the `AvgMs` key. -/
def badElem (d : Json) : Prop :=
  (∀ kvs, d ≠ Json.obj kvs) ∨
  ∃ kvs, d = Json.obj kvs ∧ (kvs.lookup "Name" = none ∨ kvs.lookup "AvgMs" = none)

/-- Parsed top-level values on which lines 16-17 raise an uncaught exception:
non-iterable scalars, a non-empty object or string (whose iteration yields
strings, which are not subscriptable by `'Name'`), or an array containing a
bad element. Note the empty object and the empty string are absent: they
iterate zero times and the script accepts them. -/
def badData : Json → Prop
  | .null => True
  | .bool _ => True
  | .num _ => True
  | .str s => s ≠ ""
  | .obj kvs => kvs ≠ []
  | .arr xs => ∃ d ∈ xs, badElem d

/-- If any element of the list makes `f` fail, `mapE f` fails (at that element
or at an earlier one). -/
theorem mapE_error_of_mem {α β : Type} (f : α → Except PyError β) (l : List α)
    (d : α) (hd : d ∈ l) (hf : ∃ e, f d = .error e) :
    ∃ e, mapE f l = .error e := by
  induction l with
  | nil => exact absurd hd (List.not_mem_nil d)
  | cons a as ih =>
    cases hfa : f a with
    | error e => exact ⟨e, by simp only [mapE, hfa]⟩
    | ok b =>
      rcases List.mem_cons.mp hd with rfl | hmem
      · obtain ⟨e, he⟩ := hf
        rw [hfa] at he
        exact absurd he (by simp)
      · obtain ⟨e, he⟩ := ih hmem
        exact ⟨e, by simp only [mapE, hfa, he]⟩

/-- If `mapE f` succeeds, `f` succeeds on every element. -/
theorem mapE_ok_of_mem {α β : Type} (f : α → Except PyError β) (l : List α)
    (ys : List β) (h : mapE f l = .ok ys) (d : α) (hd : d ∈ l) :
    ∃ b, f d = .ok b := by
  induction l generalizing ys with
  | nil => exact absurd hd (List.not_mem_nil d)
  | cons a as ih =>
    rcases List.mem_cons.mp hd with rfl | hmem
    · cases hfa : f d with
      | error e => rw [show mapE f (d :: as) = .error e from by simp only [mapE, hfa]] at h; cases h
      | ok b => exact ⟨b, rfl⟩
    · cases hfa : f a with
      | error e => rw [show mapE f (a :: as) = .error e from by simp only [mapE, hfa]] at h; cases h
      | ok b =>
        cases hrest : mapE f as with
        | error e =>
          rw [show mapE f (a :: as) = .error e from by simp only [mapE, hfa, hrest]] at h
          cases h
        | ok bs => exact ih bs hrest hmem

/-- A list whose first element is a JSON string makes the `Name` extraction
fail with `TypeError` (a string is not subscriptable by a string key). -/
theorem mapE_name_str_head (s : String) (rest : List Json) :
    ∃ e, mapE (fun d => pyGetItem d "Name") (Json.str s :: rest) = .error e :=
  ⟨PyError.typeError, by simp only [mapE, pyGetItem]⟩

/-- On any `badData` value the chart construction of lines 16-25 raises. -/
theorem renderChart_error_of_badData (j : Json) (hb : badData j) :
    ∃ e, renderChart j = .error e := by
  cases j with
  | null => exact ⟨PyError.typeError, rfl⟩
  | bool b => exact ⟨PyError.typeError, rfl⟩
  | num q => exact ⟨PyError.typeError, rfl⟩
  | str s =>
    obtain ⟨c, cs, hs⟩ : ∃ c cs, s.toList = c :: cs := by
      cases s with
      | mk l =>
        cases l with
        | nil => exact absurd rfl hb
        | cons c cs => exact ⟨c, cs, rfl⟩
    have hiter : pyIter (Json.str s) =
        .ok (Json.str (String.mk [c]) :: cs.map (fun c => Json.str (String.mk [c]))) := by
      simp only [pyIter, hs, List.map_cons]
    obtain ⟨e, he⟩ := mapE_name_str_head (String.mk [c])
      (cs.map (fun c => Json.str (String.mk [c])))
    exact ⟨e, by simp only [renderChart, hiter, he]⟩
  | obj kvs =>
    cases kvs with
    | nil => exact absurd rfl hb
    | cons kv kvt =>
      have hiter : pyIter (Json.obj (kv :: kvt)) =
          .ok (Json.str kv.1 :: kvt.map (fun kv => Json.str kv.1)) := by
        simp only [pyIter, List.map_cons]
      obtain ⟨e, he⟩ := mapE_name_str_head kv.1 (kvt.map (fun kv => Json.str kv.1))
      exact ⟨e, by simp only [renderChart, hiter, he]⟩
  | arr xs =>
    obtain ⟨d, hd, hbe⟩ := hb
    have hiter : pyIter (Json.arr xs) = .ok xs := rfl
    rcases hbe with hno | ⟨kvs, rfl, hmiss⟩
    · have hf : ∃ e, pyGetItem d "Name" = .error e := by
        cases d with
        | obj kvs => exact absurd rfl (hno kvs)
        | null => exact ⟨PyError.typeError, rfl⟩
        | bool b => exact ⟨PyError.typeError, rfl⟩
        | num q => exact ⟨PyError.typeError, rfl⟩
        | str s => exact ⟨PyError.typeError, rfl⟩
        | arr ys => exact ⟨PyError.typeError, rfl⟩
      obtain ⟨e, he⟩ := mapE_error_of_mem (fun d => pyGetItem d "Name") xs d hd hf
      exact ⟨e, by simp only [renderChart, hiter, he]⟩
    · rcases hmiss with hname | havg
      · have hf : ∃ e, pyGetItem (Json.obj kvs) "Name" = .error e :=
          ⟨PyError.keyError, by simp only [pyGetItem, hname]⟩
        obtain ⟨e, he⟩ := mapE_error_of_mem (fun d => pyGetItem d "Name") xs _ hd hf
        exact ⟨e, by simp only [renderChart, hiter, he]⟩
      · cases hnames : mapE (fun d => pyGetItem d "Name") xs with
        | error e => exact ⟨e, by simp only [renderChart, hiter, hnames]⟩
        | ok ns =>
          have hf : ∃ e, pyGetItem (Json.obj kvs) "AvgMs" = .error e :=
            ⟨PyError.keyError, by simp only [pyGetItem, havg]⟩
          obtain ⟨e, he⟩ := mapE_error_of_mem (fun d => pyGetItem d "AvgMs") xs _ hd hf
          exact ⟨e, by simp only [renderChart, hiter, hnames, he]⟩

/-- Counterexample to C8 as stated: the file text `{}` is valid JSON and is
not an array of objects, yet the program succeeds — iterating the empty dict
yields zero records, so the degenerate chart is written, `Wrote plot-b.png`
is printed, and the exit code is 0 rather than non-zero. -/
theorem claim8_cex :
    (run ["plot_performance.py", "b.json"]
      (fun q => if q = "b.json" then some (FsNode.file (some (Json.obj []))) else none)).exitCode = 0 ∧
    (run ["plot_performance.py", "b.json"]
      (fun q => if q = "b.json" then some (FsNode.file (some (Json.obj []))) else none)).written ≠ none ∧
    (run ["plot_performance.py", "b.json"]
      (fun q => if q = "b.json" then some (FsNode.file (some (Json.obj []))) else none)).printed = ["Wrote plot-b.png"] := by
  have hfs : (fun q => if q = "b.json"
      then some (FsNode.file (some (Json.obj []))) else none) "b.json" =
      some (FsNode.file (some (Json.obj []))) := rfl
  rw [run_success ["plot_performance.py", "b.json"]
    (fun q => if q = "b.json" then some (FsNode.file (some (Json.obj []))) else none)
    "b.json" (Json.obj []) (chartOf []) (by decide) rfl hfs rfl]
  exact ⟨rfl, by simp, rfl⟩

/-- Claim C8, amended: if the file's text is not valid JSON, or its parsed
value is a non-iterable scalar, a non-empty object or string, or an array
containing an element that is not an object or an object lacking the `Name`
or `AvgMs` field, the error propagates uncaught: the process exits with the
interpreter's uncaught-exception status 1 (non-zero), prints nothing to
stdout, writes no file and substitutes no default. (The empty object `{}` and
empty string `""` are excluded: they iterate zero times and succeed, which is
the counterexample to the claim as originally stated.) -/
theorem claim8_amended (argv : List String) (fs : String → Option FsNode) (p : String)
    (c : Option Json) (hlen : 2 ≤ argv.length) (hp : argv.getD 1 "" = p)
    (hfs : fs p = some (FsNode.file c))
    (hbad : c = none ∨ ∃ j, c = some j ∧ badData j) :
    (run argv fs).exitCode = 1 ∧ (run argv fs).exitCode ≠ 0 ∧
    (run argv fs).written = none ∧ (run argv fs).printed = [] := by
  rcases hbad with rfl | ⟨j, rfl, hb⟩
  · rw [run_badtext argv fs p hlen hp hfs]
    exact ⟨rfl, by decide, rfl, rfl⟩
  · obtain ⟨e, he⟩ := renderChart_error_of_badData j hb
    rw [run_renderError argv fs p j e hlen hp hfs he]
    exact ⟨rfl, by decide, rfl, rfl⟩

/-- Witness for amended C8: a one-record array whose record lacks `AvgMs`
terminates uncaught with exit code 1 and writes nothing. -/
theorem claim8_amended_witness :
    (run ["plot_performance.py", "m.json"]
      (fun q => if q = "m.json"
        then some (FsNode.file (some (Json.arr [Json.obj [("Name", Json.str "A")]])))
        else none)).exitCode = 1 ∧
    (run ["plot_performance.py", "m.json"]
      (fun q => if q = "m.json"
        then some (FsNode.file (some (Json.arr [Json.obj [("Name", Json.str "A")]])))
        else none)).exitCode ≠ 0 ∧
    (run ["plot_performance.py", "m.json"]
      (fun q => if q = "m.json"
        then some (FsNode.file (some (Json.arr [Json.obj [("Name", Json.str "A")]])))
        else none)).written = none ∧
    (run ["plot_performance.py", "m.json"]
      (fun q => if q = "m.json"
        then some (FsNode.file (some (Json.arr [Json.obj [("Name", Json.str "A")]])))
        else none)).printed = [] :=
  claim8_amended ["plot_performance.py", "m.json"]
    (fun q => if q = "m.json"
      then some (FsNode.file (some (Json.arr [Json.obj [("Name", Json.str "A")]])))
      else none)
    "m.json" (some (Json.arr [Json.obj [("Name", Json.str "A")]]))
    (by decide) rfl rfl
    (Or.inr ⟨Json.arr [Json.obj [("Name", Json.str "A")]], rfl,
      ⟨Json.obj [("Name", Json.str "A")], by simp,
        Or.inr ⟨[("Name", Json.str "A")], rfl, Or.inr rfl⟩⟩⟩)
